import Mathlib

/-!
Verification of `src/practica.py`, a linear extract-transform-load pipeline:
extract current weather from an HTTP API, transform the raw payload into a
canonical record, save it to a JSON checkpoint file, reload it, and insert it
into a document store.  Each stage runs under a retry policy provided by the
workflow library.

Embedding conventions:
* JSON documents are the inductive `JValue`; JSON numbers are `Int` (no
  arithmetic is ever performed on them, they are only copied verbatim).
* Python exceptions are the inductive `PyErr`; fallible code returns
  `Except PyErr α`.
* External collaborators (HTTP client, JSON codec, file system, document
  store, clock/timezone) are modelled at their boundary: per-attempt oracle
  functions supply their outcomes, and the file system stores JSON values.
* The retry engine itself lives in the workflow library, not in `src/`;
  it is modelled from the spec (see `retryGo`).
-/

/-- A JSON value as produced by `response.json()` / `json.load`.  Numbers are
modelled as `Int`: the pipeline copies them verbatim and never computes with
them. -/
inductive JValue where
  | null : JValue
  | bool (b : Bool) : JValue
  | num (n : Int) : JValue
  | str (s : String) : JValue
  | arr (elems : List JValue) : JValue
  | obj (fields : List (String × JValue)) : JValue

/-- First-match lookup in a JSON object's field list (Python `dict` access;
the `dict`s built by `json` never carry duplicate keys). -/
def jlookup : List (String × JValue) → String → Option JValue
  | [], _ => none
  | (k, v) :: rest, key => if k = key then some v else jlookup rest key

/-- Python truthiness of a JSON value (`if not data.get("weather")`). -/
def JValue.isTruthy : JValue → Bool
  | .null => false
  | .bool b => b
  | .num n => n ≠ 0
  | .str s => s ≠ ""
  | .arr es => ¬ es.isEmpty
  | .obj fs => ¬ fs.isEmpty

/-- `isinstance(data, dict) and data`: a non-empty JSON object. -/
def JValue.isNonEmptyObj : JValue → Bool
  | .obj fs => ¬ fs.isEmpty
  | _ => false

/-- Python exceptions raised by the pipeline or its collaborators. -/
inductive PyErr where
  | valueError (msg : String) : PyErr
  | keyError (key : String) : PyErr
  | indexError : PyErr
  | typeError (msg : String) : PyErr
  | attributeError (msg : String) : PyErr
  | httpError (status : Nat) : PyErr
  | connectionError (msg : String) : PyErr
  | jsonDecodeError : PyErr
  | osError (msg : String) : PyErr
  | serverTimeout (msg : String) : PyErr
deriving Repr, DecidableEq

/-- Errors the spec classifies as transient I/O (network, HTTP status,
connection/timeout failures): retried by the stage policies. -/
def PyErr.isTransient : PyErr → Bool
  | .httpError _ => true
  | .connectionError _ => true
  | .serverTimeout _ => true
  | _ => false

/-- Errors the spec classifies as validation errors (Python `ValueError`):
never retried away, immediately fatal. -/
def PyErr.isValidationError : PyErr → Bool
  | .valueError _ => true
  | _ => false

/-- Python `data[key]` on a JSON value: `KeyError` when the key is absent
from an object, `TypeError` when the value is not an object. -/
def JValue.sub : JValue → String → Except PyErr JValue
  | .obj fs, key =>
      match jlookup fs key with
      | some v => .ok v
      | none => .error (.keyError key)
  | _, _ => .error (.typeError "object is not subscriptable")

/-- Python `data[i]` on a JSON value: `IndexError` when out of range,
`TypeError` when the value is not a list. -/
def JValue.idx : JValue → Nat → Except PyErr JValue
  | .arr es, i =>
      match es.get? i with
      | some v => .ok v
      | none => .error .indexError
  | _, _ => .error (.typeError "object is not subscriptable")

/-- Python `data.get(key, default)` on a JSON value: total on objects,
`AttributeError` on anything else. -/
def JValue.getD : JValue → String → JValue → Except PyErr JValue
  | .obj fs, key, dflt => .ok ((jlookup fs key).getD dflt)
  | _, _, _ => .error (.attributeError "get")

/-- `datetime.fromtimestamp` needs a number. -/
def JValue.asNum : JValue → Except PyErr Int
  | .num n => .ok n
  | _ => .error (.typeError "an integer is required")

/-- Modelled from the spec: the retry engine of the workflow library (not in
`src/`; `src/practica.py` only declares each stage's attempt budget and
delay).  `retryGo work i r` performs attempts `i, i+1, ...` with `r` attempts
remaining: success on any attempt short-circuits and returns it; on the final
failing attempt the failure is propagated unchanged (no wrapping).  The first
component is the total number of attempts performed. -/
def retryGo {E A : Type} (work : Nat → Except E A) (i : Nat) : Nat → Nat × Except E A
  | 0 => (i, work i)
  | 1 => (i + 1, work i)
  | r + 2 =>
      match work i with
      | .ok a => (i + 1, .ok a)
      | .error _ => retryGo work (i + 1) (r + 1)

/-- Modelled from the spec: run a unit of work under a retry policy with a
total budget of `n` attempts, returning the number of attempts performed
together with the final outcome. -/
def retryExec {E A : Type} (work : Nat → Except E A) (n : Nat) : Nat × Except E A :=
  retryGo work 0 n

theorem retryGo_all_fail {E A : Type} (work : Nat → Except E A) :
    ∀ r i, 1 ≤ r → (∀ j, i ≤ j → j < i + r → ∃ e, work j = Except.error e) →
      retryGo work i r = (i + r, work (i + r - 1)) := by
  intro r
  induction r with
  | zero => intro i h; omega
  | succ r ih =>
    intro i _ hfail
    match r with
    | 0 => simp [retryGo]
    | r + 1 =>
      obtain ⟨e, he⟩ := hfail i (le_refl i) (by omega)
      have step : retryGo work i (r + 2) = retryGo work (i + 1) (r + 1) := by
        simp [retryGo, he]
      rw [step, ih (i + 1) (by omega) (fun j hj hj2 => hfail j (by omega) (by omega))]
      simp only [Prod.mk.injEq]
      exact ⟨by omega, by congr 1; omega⟩

theorem retryGo_succeeds_at {E A : Type} (work : Nat → Except E A) :
    ∀ k r i (a : A), k < r →
      (∀ j, i ≤ j → j < i + k → ∃ e, work j = Except.error e) →
      work (i + k) = Except.ok a →
      retryGo work i r = (i + k + 1, Except.ok a) := by
  intro k
  induction k with
  | zero =>
    intro r i a hk _ hok
    match r with
    | 1 => simp only [retryGo]; rw [show i + 0 = i from rfl] at hok; rw [hok]
    | r + 2 =>
      rw [show i + 0 = i from rfl] at hok
      simp [retryGo, hok]
  | succ k ih =>
    intro r i a hk hfail hok
    match r with
    | r + 2 =>
      obtain ⟨e, he⟩ := hfail i (le_refl i) (by omega)
      have step : retryGo work i (r + 2) = retryGo work (i + 1) (r + 1) := by
        simp [retryGo, he]
      rw [step, ih (r + 1) (i + 1) a (by omega)
        (fun j hj hj2 => hfail j (by omega) (by omega))
        (by rw [show i + 1 + k = i + (k + 1) by omega]; exact hok)]
      simp only [Prod.mk.injEq]
      exact ⟨by omega, trivial⟩

/-- C1: under a retry policy with a total budget of `N` attempts, a unit of
work that fails on the first `k < N` attempts and succeeds on attempt `k+1`
is attempted exactly `k+1` times and its successful result is returned; a
unit of work that fails on every attempt is attempted exactly `N` times and
the failure of the final attempt is propagated unchanged. -/
theorem retry_policy_c1 :
    (∀ (E A : Type) (work : Nat → Except E A) (N k : Nat) (a : A),
      k < N →
      (∀ j, j < k → ∃ e, work j = Except.error e) →
      work k = Except.ok a →
      retryExec work N = (k + 1, Except.ok a)) ∧
    (∀ (E A : Type) (work : Nat → Except E A) (N : Nat),
      1 ≤ N →
      (∀ j, j < N → ∃ e, work j = Except.error e) →
      retryExec work N = (N, work (N - 1))) := by
  constructor
  · intro E A work N k a hk hfail hok
    unfold retryExec
    have := retryGo_succeeds_at work k N 0 a hk
      (fun j hj hj2 => hfail j (by omega)) (by simpa using hok)
    simpa using this
  · intro E A work N hN hfail
    unfold retryExec
    have := retryGo_all_fail work N 0 hN (fun j hj hj2 => hfail j (by omega))
    simpa using this

/-- Sample unit of work failing on attempt 1, succeeding on attempt 2. -/
def sampleWorkRecovers : Nat → Except String Nat :=
  fun i => if i = 0 then Except.error "boom" else Except.ok 7

/-- Sample unit of work failing on every attempt. -/
def sampleWorkAlwaysFails : Nat → Except String Nat :=
  fun i => Except.error ("boom " ++ toString i)

theorem retry_policy_c1_witness :
    retryExec sampleWorkRecovers 3 = (2, Except.ok 7) ∧
    retryExec sampleWorkAlwaysFails 3 = (3, Except.error "boom 2") := by
  constructor
  · exact retry_policy_c1.1 String Nat sampleWorkRecovers 3 1 7 (by omega)
      (fun j hj => ⟨"boom", by have hj0 : j = 0 := (by omega); subst hj0; rfl⟩) rfl
  · exact retry_policy_c1.2 String Nat sampleWorkAlwaysFails 3 (by omega)
      (fun j hj => ⟨"boom " ++ toString j, rfl⟩)

/-- Python `repr` of a list of plain strings, item part (`'a', 'b'`). -/
def pyReprItems : List String → String
  | [] => ""
  | [x] => "\x27" ++ x ++ "\x27"
  | x :: y :: rest => "\x27" ++ x ++ "\x27" ++ ", " ++ pyReprItems (y :: rest)

/-- Python `repr` of a list of plain strings, as interpolated by the f-string
`f"... : \x7bmissing\x7d"`. -/
def pyReprList (xs : List String) : String :=
  "[" ++ pyReprItems xs ++ "]"

/-- Zero-padded two-digit rendering of a component of a time of day. -/
def pad2 (n : Nat) : String :=
  if n < 10 then "0" ++ toString n else toString n

/-- Modelled boundary for `datetime.fromtimestamp(t).strftime("%H:%M:%S")`:
the process-local timezone is a fixed offset `tzOffset` in seconds from UTC
(DST and leap seconds are outside the embedding). -/
def hhmmss (tzOffset : Int) (t : Int) : String :=
  let secs := ((t + tzOffset) % 86400).toNat
  pad2 (secs / 3600) ++ ":" ++ pad2 (secs % 3600 / 60) ++ ":" ++ pad2 (secs % 60)

/-- Python `data[key]` on the top-level payload `dict`. -/
def dictSub (data : List (String × JValue)) (key : String) : Except PyErr JValue :=
  match jlookup data key with
  | some v => .ok v
  | none => .error (.keyError key)

def requiredTopKeys : List String :=
  ["name", "sys", "main", "weather", "clouds", "coord"]

def missingMsg (missing : List String) : String :=
  "Faltan claves requeridas en la respuesta: " ++ pyReprList missing

def weatherMsg : String :=
  "La clave \x27weather\x27 no contiene información."

/-- `transformar_datos` from `src/practica.py`.  `tzOffset`/`now` model the
clock and timezone boundary (`datetime.fromtimestamp`, `datetime.now`); the
payload is the `dict` returned by the extractor.  Field values are computed
in the evaluation order of the Python `dict` literal, so the first failing
access determines the exception. -/
def transformar_datos (tzOffset : Int) (now : String) (data : List (String × JValue)) :
    Except PyErr JValue := do
  let missing := requiredTopKeys.filter fun k => (jlookup data k).isNone
  if ¬ missing.isEmpty then
    throw (.valueError (missingMsg missing))
  if ¬ ((jlookup data "weather").getD .null).isTruthy then
    throw (.valueError weatherMsg)
  let ciudad ← dictSub data "name"
  let sys ← dictSub data "sys"
  let pais ← sys.sub "country"
  let main ← dictSub data "main"
  let temperatura ← main.sub "temp"
  let sensacionTermica ← main.sub "feels_like"
  let tempMin ← main.sub "temp_min"
  let tempMax ← main.sub "temp_max"
  let humedad ← main.sub "humidity"
  let presion ← main.sub "pressure"
  let weather ← dictSub data "weather"
  let w0 ← weather.idx 0
  let descripcion ← w0.sub "description"
  let w0b ← weather.idx 0
  let icono ← w0b.sub "icon"
  let clouds ← dictSub data "clouds"
  let nubosidad ← clouds.sub "all"
  let wind := (jlookup data "wind").getD (.obj [])
  let vientoVelocidad ← wind.getD "speed" (.num 0)
  let wind2 := (jlookup data "wind").getD (.obj [])
  let vientoDireccion ← wind2.getD "deg" (.num 0)
  let visibilidad := (jlookup data "visibility").getD (.num 0)
  let sunriseV ← sys.sub "sunrise"
  let sunrise ← sunriseV.asNum
  let sunsetV ← sys.sub "sunset"
  let sunset ← sunsetV.asNum
  let coord ← dictSub data "coord"
  let latitud ← coord.sub "lat"
  let longitud ← coord.sub "lon"
  return JValue.obj [
    ("ciudad", ciudad),
    ("pais", pais),
    ("temperatura", temperatura),
    ("sensacion_termica", sensacionTermica),
    ("temp_min", tempMin),
    ("temp_max", tempMax),
    ("humedad", humedad),
    ("presion", presion),
    ("descripcion", descripcion),
    ("icono", icono),
    ("nubosidad", nubosidad),
    ("viento_velocidad", vientoVelocidad),
    ("viento_direccion", vientoDireccion),
    ("visibilidad", visibilidad),
    ("amanecer", .str (hhmmss tzOffset sunrise)),
    ("atardecer", .str (hhmmss tzOffset sunset)),
    ("coordenadas", .obj [("latitud", latitud), ("longitud", longitud)]),
    ("timestamp", .str now)]

/-- Outcome of `requests.get`: HTTP status code and the result of parsing the
body (`none` models a `json()` decode failure). -/
structure HttpResp where
  status : Nat
  body : Option JValue

def apiEmptyMsg : String := "Respuesta vacía o inválida de la API."

/-- `extraer_datos_clima` from `src/practica.py`, with the HTTP client
modelled at its boundary: `resp` is the outcome of `requests.get` for one
attempt (a connection/timeout exception, or a response).
`raise_for_status` raises `HTTPError` for 4xx/5xx status codes. -/
def extraer_datos_clima (resp : Except PyErr HttpResp) :
    Except PyErr (List (String × JValue)) := do
  let r ← resp
  if 400 ≤ r.status ∧ r.status < 600 then
    throw (.httpError r.status)
  let d ← match r.body with
    | some v => pure v
    | none => throw PyErr.jsonDecodeError
  match d with
  | .obj fields =>
      if fields.isEmpty then throw (.valueError apiEmptyMsg) else pure fields
  | _ => throw (.valueError apiEmptyMsg)

/-- The file system at the JSON-value boundary: each path holds the JSON
value stored there, `json.dump`/`json.load` being value-faithful per their
contract. -/
def FS : Type := String → Option JValue

/-- `guardar_json` from `src/practica.py`: overwrites the file at
`json_path` with the record and returns the path.  `writeOk` is whether the
OS-level open/write of this attempt succeeds. -/
def guardar_json (writeOk : Bool) (registro_clima : JValue) (json_path : String) (fs : FS) :
    Except PyErr (String × FS) :=
  if writeOk then
    .ok (json_path, fun p => if p = json_path then some registro_clima else fs p)
  else
    .error (.osError json_path)

def jsonEmptyMsg : String :=
  "El JSON leído está vacío o no tiene formato de objeto."

/-- `leer_json` from `src/practica.py`: reads and parses the file at
`json_path`, and requires the parsed value to be a non-empty JSON object.
`readOk` is whether the OS-level open/read of this attempt succeeds. -/
def leer_json (readOk : Bool) (json_path : String) (fs : FS) : Except PyErr JValue :=
  if readOk then
    match fs json_path with
    | none => .error (.osError json_path)
    | some d =>
        if d.isNonEmptyObj then .ok d
        else .error (.valueError jsonEmptyMsg)
  else
    .error (.osError json_path)

def mongoOkMsg (insertedId : String) : String :=
  "Documento insertado en MongoDB con _id=" ++ insertedId

/-- `cargar_a_mongo` from `src/practica.py`, with the document store
modelled at its boundary: `conn` is the outcome of constructing the
`MongoClient`, `insert` the outcome of `insert_one` (the generated id on
success).  The first component counts the `client.close()` calls of the
`finally` block, which closes the client exactly when it is not `None`. -/
def cargar_a_mongo (conn : Except PyErr Unit) (insert : Except PyErr String) :
    Nat × Except PyErr String :=
  match conn with
  | .error e => (0, .error e)
  | .ok _ =>
      match insert with
      | .error e => (1, .error e)
      | .ok insertedId => (1, .ok (mongoOkMsg insertedId))

/-- Modelled from the spec: `retryExec` for a unit of work instrumented with
a side-effect count (connection releases), accumulating the counts over all
attempts performed. -/
def retryRelGo {E A : Type} (work : Nat → Nat × Except E A) (i acc : Nat) :
    Nat → Nat × Nat × Except E A
  | 0 => (i, acc + (work i).1, (work i).2)
  | 1 => (i + 1, acc + (work i).1, (work i).2)
  | r + 2 =>
      match (work i).2 with
      | .ok a => (i + 1, acc + (work i).1, .ok a)
      | .error _ => retryRelGo work (i + 1) (acc + (work i).1) (r + 1)

/-- Modelled from the spec: run an instrumented unit of work under a retry
policy with a total budget of `n` attempts; returns the attempts performed,
the accumulated side-effect count, and the final outcome. -/
def retryRel {E A : Type} (work : Nat → Nat × Except E A) (n : Nat) :
    Nat × Nat × Except E A :=
  retryRelGo work 0 0 n

/-- Attempt budget of the extraction stage (`retries=3, retry_delay_seconds=5`
declared in `src/practica.py`; total attempts per the spec: 3). -/
def extractBudget : Nat := 3

/-- Attempt budget of the transformation stage (no retries declared in
`src/practica.py`; the spec: transformation is not retried). -/
def transformBudget : Nat := 1

/-- Attempt budget of the checkpoint-save stage (`retries=2`). -/
def saveBudget : Nat := 2

/-- Attempt budget of the checkpoint-load stage (`retries=2`). -/
def readBudget : Nat := 2

/-- Attempt budget of the store-insert stage (`retries=3`). -/
def loadBudget : Nat := 3

/-- Per-attempt outcomes of all external collaborators of one flow run. -/
structure FlowEnv where
  http : Nat → Except PyErr HttpResp
  tzOffset : Int
  now : String
  writeOk : Nat → Bool
  readOk : Nat → Bool
  conn : Nat → Except PyErr Unit
  insert : Nat → Except PyErr String

/-- Attempt counts of each stage of one flow run, plus the number of store
connection releases. -/
structure FlowTrace where
  extractAttempts : Nat
  transformAttempts : Nat
  saveAttempts : Nat
  readAttempts : Nat
  loadAttempts : Nat
  connReleases : Nat

/-- `clima_flow` from `src/practica.py`: the linear chain
extract → transform → save → reload → load, each stage under its retry
policy, a failing stage aborting all later stages (the exception propagates
through the flow body).  Returns the attempt trace, the final file system,
and the flow outcome. -/
def clima_flow (env : FlowEnv) (_ciudad : String) (json_path : String) (fs : FS) :
    FlowTrace × FS × Except PyErr String :=
  let ext := retryExec (fun i => extraer_datos_clima (env.http i)) extractBudget
  match ext.2 with
  | .error e => (⟨ext.1, 0, 0, 0, 0, 0⟩, fs, .error e)
  | .ok data =>
    let tr := retryExec (fun _ => transformar_datos env.tzOffset env.now data) transformBudget
    match tr.2 with
    | .error e => (⟨ext.1, tr.1, 0, 0, 0, 0⟩, fs, .error e)
    | .ok registro =>
      let sv := retryExec (fun i => guardar_json (env.writeOk i) registro json_path fs) saveBudget
      match sv.2 with
      | .error e => (⟨ext.1, tr.1, sv.1, 0, 0, 0⟩, fs, .error e)
      | .ok ruta_fs =>
        let rd := retryExec (fun i => leer_json (env.readOk i) ruta_fs.1 ruta_fs.2) readBudget
        match rd.2 with
        | .error e => (⟨ext.1, tr.1, sv.1, rd.1, 0, 0⟩, ruta_fs.2, .error e)
        | .ok _dataFromJson =>
          let ld := retryRel (fun i => cargar_a_mongo (env.conn i) (env.insert i)) loadBudget
          (⟨ext.1, tr.1, sv.1, rd.1, ld.1, ld.2.1⟩, ruta_fs.2, ld.2.2)

theorem bind_eq_ok {E A B : Type} {m : Except E A} {f : A → Except E B} {b : B}
    (h : m >>= f = Except.ok b) : ∃ a, m = Except.ok a ∧ f a = Except.ok b := by
  cases m with
  | ok a => exact ⟨a, rfl, h⟩
  | error e => simp [Bind.bind, Except.bind] at h

theorem ite_guard_ok {E : Type} {c : Prop} [Decidable c] {e : E} {u : Unit}
    (h : (if c then throw e else pure ()) = (Except.ok u : Except E Unit)) : ¬ c := by
  intro hc
  rw [if_pos hc] at h
  exact Except.noConfusion h

theorem retryExec_first_ok {E A : Type} (work : Nat → Except E A) (n : Nat) (a : A)
    (hok : work 0 = Except.ok a) (hn : 1 ≤ n) : retryExec work n = (1, Except.ok a) := by
  have := retryGo_succeeds_at work 0 n 0 a hn
    (fun j hj hj2 => absurd hj2 (by omega)) (by simpa using hok)
  simpa using this

theorem retryExec_all_fail {E A : Type} (work : Nat → Except E A) (n : Nat)
    (hn : 1 ≤ n) (hfail : ∀ j, j < n → ∃ e, work j = Except.error e) :
    retryExec work n = (n, work (n - 1)) := by
  have := retryGo_all_fail work n 0 hn (fun j hj hj2 => hfail j (by omega))
  simpa using this

theorem extraer_http_status_fail (b : Option JValue) (s : Nat)
    (h4 : 400 ≤ s) (h6 : s < 600) :
    extraer_datos_clima (Except.ok ⟨s, b⟩) = Except.error (PyErr.httpError s) := by
  simp [extraer_datos_clima, Bind.bind, Except.bind, throw, throwThe, MonadExceptOf.throw,
    h4, h6]

theorem extraer_ok (b : List (String × JValue)) (s : Nat)
    (hs : s < 400) (hb : b ≠ []) :
    extraer_datos_clima (Except.ok ⟨s, some (JValue.obj b)⟩) = Except.ok b := by
  have hcond : ¬ (400 ≤ s ∧ s < 600) := by omega
  simp [extraer_datos_clima, Bind.bind, Except.bind, throw, throwThe, MonadExceptOf.throw,
    pure, Except.pure, hcond, hb]

theorem transformar_missing (tzOffset : Int) (now : String) (data : List (String × JValue))
    (k : String) (hk : k ∈ requiredTopKeys) (hmiss : jlookup data k = none) :
    transformar_datos tzOffset now data
      = Except.error (.valueError (missingMsg
          (requiredTopKeys.filter fun k2 => (jlookup data k2).isNone))) := by
  have hmem : k ∈ requiredTopKeys.filter fun k2 => (jlookup data k2).isNone :=
    List.mem_filter.mpr ⟨hk, by simp [hmiss]⟩
  have hne : (requiredTopKeys.filter fun k2 => (jlookup data k2).isNone).isEmpty = false := by
    cases hfil : requiredTopKeys.filter fun k2 => (jlookup data k2).isNone with
    | nil => rw [hfil] at hmem; cases hmem
    | cons a l => simp [List.isEmpty]
  simp [transformar_datos, Bind.bind, Except.bind, throw, throwThe, MonadExceptOf.throw, hne]

theorem clima_flow_transform_fail (env : FlowEnv) (ciudad json_path : String) (fs : FS)
    (data : List (String × JValue)) (e : PyErr)
    (hhttp : env.http 0 = Except.ok ⟨200, some (JValue.obj data)⟩)
    (hne : data ≠ [])
    (htr : transformar_datos env.tzOffset env.now data = Except.error e) :
    clima_flow env ciudad json_path fs = (⟨1, 1, 0, 0, 0, 0⟩, fs, Except.error e) := by
  have hex : extraer_datos_clima (env.http 0) = Except.ok data := by
    rw [hhttp]; exact extraer_ok data 200 (by omega) hne
  have h1 : retryExec (fun i => extraer_datos_clima (env.http i)) extractBudget
      = (1, Except.ok data) :=
    retryExec_first_ok _ _ _ hex (by decide)
  have h2 : retryExec (fun _ => transformar_datos env.tzOffset env.now data) transformBudget
      = (1, Except.error e) := by
    simp [retryExec, retryGo, transformBudget, htr]
  simp [clima_flow, h1, h2]

/-- C3: a raw payload missing a required top-level section makes the
Transformer fail with a validation error (`ValueError`), and within the flow
the transformation stage is executed exactly once: its attempt budget is 1
(no retry). -/
theorem transform_no_retry_c3 (env : FlowEnv) (ciudad json_path : String) (fs : FS)
    (data : List (String × JValue)) (k : String)
    (hk : k ∈ requiredTopKeys) (hmiss : jlookup data k = none) (hne : data ≠ [])
    (hhttp : env.http 0 = Except.ok ⟨200, some (JValue.obj data)⟩) :
    (clima_flow env ciudad json_path fs).1.transformAttempts = 1 ∧
    ∃ msg, (clima_flow env ciudad json_path fs).2.2
      = Except.error (PyErr.valueError msg) := by
  have htr := transformar_missing env.tzOffset env.now data k hk hmiss
  have hflow := clima_flow_transform_fail env ciudad json_path fs data _ hhttp hne htr
  rw [hflow]
  exact ⟨rfl, _, rfl⟩

/-- C2: when every extraction attempt sees an HTTP 503 response, the flow
performs exactly 3 extraction attempts, propagates the transient I/O error
of the final attempt, and never invokes the Transformer or any later
stage. -/
theorem extract_exhaustion_c2 (env : FlowEnv) (ciudad json_path : String) (fs : FS)
    (h503 : ∀ i, ∃ b, env.http i = Except.ok ⟨503, b⟩) :
    (clima_flow env ciudad json_path fs).1.extractAttempts = 3 ∧
    (clima_flow env ciudad json_path fs).1.transformAttempts = 0 ∧
    (clima_flow env ciudad json_path fs).1.saveAttempts = 0 ∧
    (clima_flow env ciudad json_path fs).1.readAttempts = 0 ∧
    (clima_flow env ciudad json_path fs).1.loadAttempts = 0 ∧
    (clima_flow env ciudad json_path fs).2.2 = Except.error (PyErr.httpError 503) ∧
    PyErr.isTransient (PyErr.httpError 503) = true := by
  have hfail : ∀ j, j < 3 → ∃ e, extraer_datos_clima (env.http j) = Except.error e := by
    intro j _
    obtain ⟨b, hb⟩ := h503 j
    exact ⟨PyErr.httpError 503,
      by rw [hb]; exact extraer_http_status_fail b 503 (by omega) (by omega)⟩
  have hlast : extraer_datos_clima (env.http 2) = Except.error (PyErr.httpError 503) := by
    obtain ⟨b, hb⟩ := h503 2
    rw [hb]; exact extraer_http_status_fail b 503 (by omega) (by omega)
  have h1 : retryExec (fun i => extraer_datos_clima (env.http i)) 3
      = (3, Except.error (PyErr.httpError 503)) := by
    rw [retryExec_all_fail (fun i => extraer_datos_clima (env.http i)) 3 (by omega) hfail]
    simpa using hlast
  simp [clima_flow, extractBudget, h1, PyErr.isTransient]

/-- The empty file system. -/
def fsEmpty : FS := fun _ => none

/-- Scenario-A raw payload (spec §8), with the required sections present. -/
def payloadA : List (String × JValue) :=
  [("name", JValue.str "San Jose"),
   ("sys", JValue.obj
     [("country", .str "CR"), ("sunrise", .num 1700000000), ("sunset", .num 1700040000)]),
   ("main", JValue.obj
     [("temp", .num 22), ("feels_like", .num 21), ("temp_min", .num 20),
      ("temp_max", .num 24), ("humidity", .num 80), ("pressure", .num 1012)]),
   ("weather", JValue.arr [JValue.obj [("description", .str "clear sky"), ("icon", .str "01d")]]),
   ("clouds", JValue.obj [("all", .num 5)]),
   ("coord", JValue.obj [("lat", .num 9), ("lon", .num (-84))])]

/-- Scenario-B raw payload (spec §8): `payloadA` without its `coord` section. -/
def payloadNoCoord : List (String × JValue) :=
  [("name", JValue.str "San Jose"),
   ("sys", JValue.obj
     [("country", .str "CR"), ("sunrise", .num 1700000000), ("sunset", .num 1700040000)]),
   ("main", JValue.obj
     [("temp", .num 22), ("feels_like", .num 21), ("temp_min", .num 20),
      ("temp_max", .num 24), ("humidity", .num 80), ("pressure", .num 1012)]),
   ("weather", JValue.arr [JValue.obj [("description", .str "clear sky"), ("icon", .str "01d")]]),
   ("clouds", JValue.obj [("all", .num 5)])]

/-- Environment where every extraction attempt sees an HTTP 503 response. -/
def envC2 : FlowEnv :=
  ⟨fun _ => Except.ok ⟨503, none⟩, 0, "2023-11-14T00:00:00", fun _ => true, fun _ => true,
   fun _ => Except.ok (), fun _ => Except.ok "657f00aa"⟩

theorem extract_exhaustion_c2_witness :
    (clima_flow envC2 "San Jose,CR" "clima_data.json" fsEmpty).1.extractAttempts = 3 ∧
    (clima_flow envC2 "San Jose,CR" "clima_data.json" fsEmpty).1.transformAttempts = 0 ∧
    (clima_flow envC2 "San Jose,CR" "clima_data.json" fsEmpty).1.saveAttempts = 0 ∧
    (clima_flow envC2 "San Jose,CR" "clima_data.json" fsEmpty).1.readAttempts = 0 ∧
    (clima_flow envC2 "San Jose,CR" "clima_data.json" fsEmpty).1.loadAttempts = 0 ∧
    (clima_flow envC2 "San Jose,CR" "clima_data.json" fsEmpty).2.2
      = Except.error (PyErr.httpError 503) ∧
    PyErr.isTransient (PyErr.httpError 503) = true :=
  extract_exhaustion_c2 envC2 "San Jose,CR" "clima_data.json" fsEmpty (fun _ => ⟨none, rfl⟩)

/-- Environment where every extraction attempt sees the Scenario-B payload. -/
def envC3 : FlowEnv :=
  ⟨fun _ => Except.ok ⟨200, some (JValue.obj payloadNoCoord)⟩, 0, "2023-11-14T00:00:00",
   fun _ => true, fun _ => true, fun _ => Except.ok (), fun _ => Except.ok "657f00aa"⟩

theorem transform_no_retry_c3_witness :
    (clima_flow envC3 "San Jose,CR" "clima_data.json" fsEmpty).1.transformAttempts = 1 ∧
    ∃ msg, (clima_flow envC3 "San Jose,CR" "clima_data.json" fsEmpty).2.2
      = Except.error (PyErr.valueError msg) :=
  transform_no_retry_c3 envC3 "San Jose,CR" "clima_data.json" fsEmpty payloadNoCoord "coord"
    (by simp [requiredTopKeys]) (by simp [payloadNoCoord, jlookup])
    (by simp [payloadNoCoord]) rfl

/-- `t` occurs contiguously inside `s`, stated over the character lists. -/
def strContains (s t : String) : Prop :=
  ∃ u v, s.data = u ++ t.data ++ v

theorem pyReprItems_contains (k : String) :
    ∀ xs : List String, k ∈ xs →
      ∃ u v, (pyReprItems xs).data = u ++ ("\x27" ++ k ++ "\x27").data ++ v := by
  intro xs
  induction xs with
  | nil => intro h; exact absurd h (List.not_mem_nil k)
  | cons x rest ih =>
    intro hmem
    match rest, hmem, ih with
    | [], hmem, _ =>
      have hx : k = x := by
        rcases List.mem_cons.mp hmem with h | h
        · exact h
        · exact absurd h (List.not_mem_nil k)
      subst hx
      exact ⟨[], [], by simp [pyReprItems, String.data_append]⟩
    | y :: rest2, hmem, ih =>
      rcases List.mem_cons.mp hmem with hx | hrest
      · subst hx
        refine ⟨[], (", " ++ pyReprItems (y :: rest2)).data, ?_⟩
        simp [pyReprItems, String.data_append, List.append_assoc]
      · obtain ⟨u, v, hu⟩ := ih hrest
        refine ⟨("\x27" ++ x ++ "\x27" ++ ", ").data ++ u, v, ?_⟩
        simp [pyReprItems, String.data_append, List.append_assoc, hu]

theorem missingMsg_contains (k : String) (missing : List String) (hk : k ∈ missing) :
    strContains (missingMsg missing) ("\x27" ++ k ++ "\x27") := by
  obtain ⟨u, v, hu⟩ := pyReprItems_contains k missing hk
  refine ⟨("Faltan claves requeridas en la respuesta: " ++ "[").data ++ u,
    v ++ ("]" : String).data, ?_⟩
  simp [missingMsg, pyReprList, String.data_append, List.append_assoc, hu]

theorem transformar_weather_falsy (tzOffset : Int) (now : String)
    (data : List (String × JValue))
    (hall : ∀ k2 ∈ requiredTopKeys, (jlookup data k2).isSome = true)
    (hfalsy : ((jlookup data "weather").getD JValue.null).isTruthy = false) :
    transformar_datos tzOffset now data = Except.error (PyErr.valueError weatherMsg) := by
  have hmissing : (requiredTopKeys.filter fun k2 => (jlookup data k2).isNone) = [] := by
    rw [List.filter_eq_nil_iff]
    intro a ha
    have := hall a ha
    simp [Option.isNone] at this ⊢
    cases h2 : jlookup data a with
    | none => rw [h2] at this; cases this
    | some v => simp
  simp [transformar_datos, Bind.bind, Except.bind, throw, throwThe, MonadExceptOf.throw,
    pure, Except.pure, hmissing, hfalsy]

/-- C4: a raw payload lacking a required top-level key makes the Transformer
fail with a `ValueError` whose message lists that key; a payload with all
required keys whose `weather` value is empty fails with the dedicated
`ValueError`; and in the flow a payload of either class — one missing a
required key, or one with all required keys but empty `weather` — leaves
the save, reload and load stages (including the Loader) never invoked. -/
theorem transform_missing_keys_c4 :
    (∀ (tzOffset : Int) (now : String) (data : List (String × JValue)) (k : String),
      k ∈ requiredTopKeys → jlookup data k = none →
      ∃ msg, transformar_datos tzOffset now data = Except.error (PyErr.valueError msg) ∧
        strContains msg ("\x27" ++ k ++ "\x27")) ∧
    (∀ (tzOffset : Int) (now : String) (data : List (String × JValue)),
      (∀ k2 ∈ requiredTopKeys, (jlookup data k2).isSome = true) →
      ((jlookup data "weather").getD JValue.null).isTruthy = false →
      transformar_datos tzOffset now data = Except.error (PyErr.valueError weatherMsg)) ∧
    (∀ (env : FlowEnv) (ciudad json_path : String) (fs : FS)
      (data : List (String × JValue)) (k : String),
      k ∈ requiredTopKeys → jlookup data k = none → data ≠ [] →
      env.http 0 = Except.ok ⟨200, some (JValue.obj data)⟩ →
      (clima_flow env ciudad json_path fs).1.saveAttempts = 0 ∧
      (clima_flow env ciudad json_path fs).1.readAttempts = 0 ∧
      (clima_flow env ciudad json_path fs).1.loadAttempts = 0 ∧
      (clima_flow env ciudad json_path fs).1.connReleases = 0) ∧
    (∀ (env : FlowEnv) (ciudad json_path : String) (fs : FS)
      (data : List (String × JValue)),
      (∀ k2 ∈ requiredTopKeys, (jlookup data k2).isSome = true) →
      ((jlookup data "weather").getD JValue.null).isTruthy = false →
      env.http 0 = Except.ok ⟨200, some (JValue.obj data)⟩ →
      (clima_flow env ciudad json_path fs).1.saveAttempts = 0 ∧
      (clima_flow env ciudad json_path fs).1.readAttempts = 0 ∧
      (clima_flow env ciudad json_path fs).1.loadAttempts = 0 ∧
      (clima_flow env ciudad json_path fs).1.connReleases = 0) := by
  refine ⟨?_, ?_, ?_, ?_⟩
  · intro tzOffset now data k hk hmiss
    refine ⟨_, transformar_missing tzOffset now data k hk hmiss, ?_⟩
    exact missingMsg_contains k _ (List.mem_filter.mpr ⟨hk, by simp [hmiss]⟩)
  · intro tzOffset now data hall hfalsy
    exact transformar_weather_falsy tzOffset now data hall hfalsy
  · intro env ciudad json_path fs data k hk hmiss hne hhttp
    have htr := transformar_missing env.tzOffset env.now data k hk hmiss
    have hflow := clima_flow_transform_fail env ciudad json_path fs data _ hhttp hne htr
    rw [hflow]
    exact ⟨rfl, rfl, rfl, rfl⟩
  · intro env ciudad json_path fs data hall hfalsy hhttp
    have hne : data ≠ [] := by
      intro he
      have hname := hall "name" (by simp [requiredTopKeys])
      rw [he] at hname
      simp [jlookup] at hname
    have htr := transformar_weather_falsy env.tzOffset env.now data hall hfalsy
    have hflow := clima_flow_transform_fail env ciudad json_path fs data _ hhttp hne htr
    rw [hflow]
    exact ⟨rfl, rfl, rfl, rfl⟩

/-- Raw payload with all required keys but an empty `weather` list. -/
def payloadEmptyWeather : List (String × JValue) :=
  [("name", JValue.str "San Jose"),
   ("sys", JValue.obj
     [("country", .str "CR"), ("sunrise", .num 1700000000), ("sunset", .num 1700040000)]),
   ("main", JValue.obj [("temp", .num 22)]),
   ("weather", JValue.arr []),
   ("clouds", JValue.obj [("all", .num 5)]),
   ("coord", JValue.obj [("lat", .num 9), ("lon", .num (-84))])]

/-- Environment where every extraction attempt sees the empty-weather
payload. -/
def envC4 : FlowEnv :=
  ⟨fun _ => Except.ok ⟨200, some (JValue.obj payloadEmptyWeather)⟩, 0, "2023-11-14T00:00:00",
   fun _ => true, fun _ => true, fun _ => Except.ok (), fun _ => Except.ok "657f00aa"⟩

theorem transform_missing_keys_c4_witness :
    (∃ msg, transformar_datos 0 "t" payloadNoCoord = Except.error (PyErr.valueError msg) ∧
      strContains msg ("\x27" ++ "coord" ++ "\x27")) ∧
    transformar_datos 0 "t" payloadEmptyWeather
      = Except.error (PyErr.valueError weatherMsg) ∧
    ((clima_flow envC3 "San Jose,CR" "clima_data.json" fsEmpty).1.saveAttempts = 0 ∧
     (clima_flow envC3 "San Jose,CR" "clima_data.json" fsEmpty).1.readAttempts = 0 ∧
     (clima_flow envC3 "San Jose,CR" "clima_data.json" fsEmpty).1.loadAttempts = 0 ∧
     (clima_flow envC3 "San Jose,CR" "clima_data.json" fsEmpty).1.connReleases = 0) ∧
    ((clima_flow envC4 "San Jose,CR" "clima_data.json" fsEmpty).1.saveAttempts = 0 ∧
     (clima_flow envC4 "San Jose,CR" "clima_data.json" fsEmpty).1.readAttempts = 0 ∧
     (clima_flow envC4 "San Jose,CR" "clima_data.json" fsEmpty).1.loadAttempts = 0 ∧
     (clima_flow envC4 "San Jose,CR" "clima_data.json" fsEmpty).1.connReleases = 0) :=
  ⟨transform_missing_keys_c4.1 0 "t" payloadNoCoord "coord"
      (by simp [requiredTopKeys]) (by simp [payloadNoCoord, jlookup]),
   transform_missing_keys_c4.2.1 0 "t" payloadEmptyWeather
      (by intro k2 hk2; revert hk2; simp [requiredTopKeys]; rintro (rfl | rfl | rfl | rfl | rfl | rfl) <;> rfl)
      (by rfl),
   transform_missing_keys_c4.2.2.1 envC3 "San Jose,CR" "clima_data.json" fsEmpty
      payloadNoCoord "coord" (by simp [requiredTopKeys]) (by simp [payloadNoCoord, jlookup])
      (by simp [payloadNoCoord]) rfl,
   transform_missing_keys_c4.2.2.2 envC4 "San Jose,CR" "clima_data.json" fsEmpty
      payloadEmptyWeather
      (by intro k2 hk2; revert hk2; simp [requiredTopKeys]; rintro (rfl | rfl | rfl | rfl | rfl | rfl) <;> rfl)
      (by rfl) rfl⟩


theorem transformar_ok_shape (tzOffset : Int) (now : String)
    (data : List (String × JValue)) (r : JValue)
    (h : transformar_datos tzOffset now data = Except.ok r) :
    ∃ (ciudad pais temperatura sensacionTermica tempMin tempMax humedad presion
       descripcion icono nubosidad vientoVelocidad vientoDireccion visibilidad
       latitud longitud : JValue) (amanecer atardecer : String),
      r = JValue.obj [
        ("ciudad", ciudad), ("pais", pais), ("temperatura", temperatura),
        ("sensacion_termica", sensacionTermica), ("temp_min", tempMin),
        ("temp_max", tempMax), ("humedad", humedad), ("presion", presion),
        ("descripcion", descripcion), ("icono", icono), ("nubosidad", nubosidad),
        ("viento_velocidad", vientoVelocidad), ("viento_direccion", vientoDireccion),
        ("visibilidad", visibilidad), ("amanecer", .str amanecer),
        ("atardecer", .str atardecer),
        ("coordenadas", .obj [("latitud", latitud), ("longitud", longitud)]),
        ("timestamp", .str now)] := by
  unfold transformar_datos at h
  simp only [Bind.bind] at h
  unfold Except.bind at h
  iterate 40
    (all_goals (try simp only [Pure.pure, Except.pure] at h)
     all_goals (try split at h))
  all_goals first
    | exact Except.noConfusion h
    | (injection h with h;
       exact ⟨_, _, _, _, _, _, _, _, _, _, _, _, _, _, _, _, _, _, h.symm⟩)

/-- Raw payload with all required top-level sections present but an empty
`sys` block: the required nested field `sys.country` is absent. -/
def payloadSysEmpty : List (String × JValue) :=
  [("name", JValue.str "San Jose"),
   ("sys", JValue.obj []),
   ("main", JValue.obj [("temp", .num 22)]),
   ("weather", JValue.arr [JValue.obj [("description", .str "clear sky"), ("icon", .str "01d")]]),
   ("clouds", JValue.obj [("all", .num 5)]),
   ("coord", JValue.obj [("lat", .num 9), ("lon", .num (-84))])]

/-- C5 counterexample: on a payload whose required nested field
`sys.country` is absent while every required top-level section is present,
WeatherRecord construction fails with a `KeyError`, which is not a
validation error — refuting the claim that no failure other than a
validation error can occur during construction. -/
theorem transform_keyerror_c5_cex :
    transformar_datos 0 "t" payloadSysEmpty = Except.error (PyErr.keyError "country") ∧
    PyErr.isValidationError (PyErr.keyError "country") = false :=
  ⟨rfl, rfl⟩

/-- C5 (amended): WeatherRecord construction never yields a partial record —
whenever the Transformer succeeds it returns a record with every field of
the canonical schema populated, the nested coordinates object included; on
failure it raises an exception, but that exception can be a `KeyError` (not
a validation error) when a required nested field is absent. -/
theorem transform_full_record_c5 (tzOffset : Int) (now : String)
    (data : List (String × JValue)) (r : JValue)
    (h : transformar_datos tzOffset now data = Except.ok r) :
    ∃ (ciudad pais temperatura sensacionTermica tempMin tempMax humedad presion
       descripcion icono nubosidad vientoVelocidad vientoDireccion visibilidad
       latitud longitud : JValue) (amanecer atardecer : String),
      r = JValue.obj [
        ("ciudad", ciudad), ("pais", pais), ("temperatura", temperatura),
        ("sensacion_termica", sensacionTermica), ("temp_min", tempMin),
        ("temp_max", tempMax), ("humedad", humedad), ("presion", presion),
        ("descripcion", descripcion), ("icono", icono), ("nubosidad", nubosidad),
        ("viento_velocidad", vientoVelocidad), ("viento_direccion", vientoDireccion),
        ("visibilidad", visibilidad), ("amanecer", .str amanecer),
        ("atardecer", .str atardecer),
        ("coordenadas", .obj [("latitud", latitud), ("longitud", longitud)]),
        ("timestamp", .str now)] :=
  transformar_ok_shape tzOffset now data r h

/-- The WeatherRecord the Transformer produces from `payloadA` at timezone
offset 0 with clock reading `2023-11-14T00:00:00`. -/
def recordA : JValue :=
  JValue.obj [
    ("ciudad", .str "San Jose"), ("pais", .str "CR"), ("temperatura", .num 22),
    ("sensacion_termica", .num 21), ("temp_min", .num 20), ("temp_max", .num 24),
    ("humedad", .num 80), ("presion", .num 1012), ("descripcion", .str "clear sky"),
    ("icono", .str "01d"), ("nubosidad", .num 5), ("viento_velocidad", .num 0),
    ("viento_direccion", .num 0), ("visibilidad", .num 0),
    ("amanecer", .str "22:13:20"), ("atardecer", .str "09:20:00"),
    ("coordenadas", .obj [("latitud", .num 9), ("longitud", .num (-84))]),
    ("timestamp", .str "2023-11-14T00:00:00")]

theorem transform_full_record_c5_witness :
    ∃ (ciudad pais temperatura sensacionTermica tempMin tempMax humedad presion
       descripcion icono nubosidad vientoVelocidad vientoDireccion visibilidad
       latitud longitud : JValue) (amanecer atardecer : String),
      recordA = JValue.obj [
        ("ciudad", ciudad), ("pais", pais), ("temperatura", temperatura),
        ("sensacion_termica", sensacionTermica), ("temp_min", tempMin),
        ("temp_max", tempMax), ("humedad", humedad), ("presion", presion),
        ("descripcion", descripcion), ("icono", icono), ("nubosidad", nubosidad),
        ("viento_velocidad", vientoVelocidad), ("viento_direccion", vientoDireccion),
        ("visibilidad", visibilidad), ("amanecer", .str amanecer),
        ("atardecer", .str atardecer),
        ("coordenadas", .obj [("latitud", latitud), ("longitud", longitud)]),
        ("timestamp", .str "2023-11-14T00:00:00")] :=
  transform_full_record_c5 0 "2023-11-14T00:00:00" payloadA recordA rfl

/-- C6: the JSON checkpoint round-trips — saving a valid WeatherRecord (a
non-empty object, as every record the Transformer produces is) and reloading
it from the same path yields the identical value, the nested coordinates
object included, field for field. -/
theorem json_roundtrip_c6 :
    (∀ (r : JValue) (json_path : String) (fs : FS), r.isNonEmptyObj = true →
      ∃ fs2, guardar_json true r json_path fs = Except.ok (json_path, fs2) ∧
        leer_json true json_path fs2 = Except.ok r) ∧
    (∀ (tzOffset : Int) (now : String) (data : List (String × JValue)) (r : JValue),
      transformar_datos tzOffset now data = Except.ok r → r.isNonEmptyObj = true) := by
  constructor
  · intro r json_path fs hr
    refine ⟨_, rfl, ?_⟩
    simp [leer_json, hr]
  · intro tzOffset now data r h
    obtain ⟨c, p, t, st, tmin, tmax, hu, pr, d, i, n, vv, vd, vis, la, lo, am, at2, hr⟩ :=
      transformar_ok_shape tzOffset now data r h
    subst hr
    rfl

theorem json_roundtrip_c6_witness :
    (∃ fs2, guardar_json true recordA "clima_data.json" fsEmpty
        = Except.ok ("clima_data.json", fs2) ∧
      leer_json true "clima_data.json" fs2 = Except.ok recordA) ∧
    recordA.isNonEmptyObj = true :=
  ⟨json_roundtrip_c6.1 recordA "clima_data.json" fsEmpty rfl,
   json_roundtrip_c6.2 0 "2023-11-14T00:00:00" payloadA recordA rfl⟩

theorem retryRelGo_count {E A : Type} (work : Nat → Nat × Except E A)
    (hone : ∀ j, (work j).1 = 1) :
    ∀ r i acc, 1 ≤ r →
      (retryRelGo work i acc r).2.1 + i = acc + (retryRelGo work i acc r).1 := by
  intro r
  induction r with
  | zero => intro i acc h; omega
  | succ r ih =>
    intro i acc _
    match r with
    | 0 =>
      simp only [retryRelGo, hone i]
      omega
    | r + 1 =>
      cases hw : (work i).2 with
      | ok a =>
        simp only [retryRelGo, hw, hone i]
        omega
      | error e =>
        have step : retryRelGo work i acc (r + 2)
            = retryRelGo work (i + 1) (acc + 1) (r + 1) := by
          simp [retryRelGo, hw, hone i]
        rw [step]
        have h2 := ih (i + 1) (acc + 1) (by omega)
        omega

theorem retryRel_releases_eq_attempts {E A : Type} (work : Nat → Nat × Except E A)
    (hone : ∀ j, (work j).1 = 1) (n : Nat) (hn : 1 ≤ n) :
    (retryRel work n).2.1 = (retryRel work n).1 := by
  have := retryRelGo_count work hone n 0 0 hn
  simpa using this

/-- C8: whenever a Loader attempt constructs the store client, the `finally`
block releases the connection exactly once on that attempt, on success and
on failure alike, so over a retried run the number of releases equals the
number of attempts performed; and a successful insert returns a confirmation
string containing the store-generated document id. -/
theorem loader_release_c8 :
    (∀ insert : Except PyErr String, (cargar_a_mongo (Except.ok ()) insert).1 = 1) ∧
    (∀ insertedId : String,
      cargar_a_mongo (Except.ok ()) (Except.ok insertedId)
        = (1, Except.ok (mongoOkMsg insertedId)) ∧
      strContains (mongoOkMsg insertedId) insertedId) ∧
    (∀ (conn : Nat → Except PyErr Unit) (insert : Nat → Except PyErr String) (n : Nat),
      1 ≤ n → (∀ i, conn i = Except.ok ()) →
      (retryRel (fun i => cargar_a_mongo (conn i) (insert i)) n).2.1
        = (retryRel (fun i => cargar_a_mongo (conn i) (insert i)) n).1) := by
  refine ⟨?_, ?_, ?_⟩
  · intro insert
    cases insert with
    | ok a => rfl
    | error e => rfl
  · intro insertedId
    refine ⟨rfl, ("Documento insertado en MongoDB con _id=" : String).data, [], ?_⟩
    simp [mongoOkMsg, String.data_append]
  · intro conn insert n hn hconn
    refine retryRel_releases_eq_attempts _ (fun j => ?_) n hn
    rw [hconn j]
    cases insert j with
    | ok a => rfl
    | error e => rfl

/-- Per-attempt insert outcomes of spec §8 Scenario D: the first attempt
times out, the second succeeds. -/
def insertsC8 : Nat → Except PyErr String :=
  fun i => if i = 0 then Except.error (PyErr.serverTimeout "timed out") else Except.ok "657f00aa"

theorem loader_release_c8_witness :
    (cargar_a_mongo (Except.ok ()) (Except.error (PyErr.serverTimeout "timed out"))).1 = 1 ∧
    (cargar_a_mongo (Except.ok ()) (Except.ok "657f00aa")
        = (1, Except.ok (mongoOkMsg "657f00aa")) ∧
      strContains (mongoOkMsg "657f00aa") "657f00aa") ∧
    (retryRel (fun i => cargar_a_mongo (Except.ok ()) (insertsC8 i)) 3).2.1
      = (retryRel (fun i => cargar_a_mongo (Except.ok ()) (insertsC8 i)) 3).1 :=
  ⟨loader_release_c8.1 (Except.error (PyErr.serverTimeout "timed out")),
   loader_release_c8.2.1 "657f00aa",
   loader_release_c8.2.2 (fun _ => Except.ok ()) insertsC8 3 (by omega) (fun _ => rfl)⟩

/-- The process environment (`os.environ`): a key-to-value map. -/
def PEnv : Type := String → Option String

/-- Python `str.strip()`: remove leading and trailing whitespace. -/
def pyStrip (s : String) : String :=
  ⟨((s.data.dropWhile Char.isWhitespace).reverse.dropWhile Char.isWhitespace).reverse⟩

/-- Python `str.strip(c)`: remove all leading and trailing copies of `c`. -/
def pyStripChar (c : Char) (s : String) : String :=
  ⟨((s.data.dropWhile (· = c)).reverse.dropWhile (· = c)).reverse⟩

/-- Python `"=" in line`. -/
def hasEq (s : String) : Bool := s.data.contains '='

/-- Python `line.split("=", 1)`: the text before the first `=` and
everything after it. -/
def splitAtEq (s : String) : String × String :=
  (⟨s.data.takeWhile (· ≠ '=')⟩, ⟨(s.data.dropWhile (· ≠ '=')).drop 1⟩)

/-- `os.environ.setdefault`: assign the key only when it is absent. -/
def setdefault (env : PEnv) (k v : String) : PEnv :=
  match env k with
  | some _ => env
  | none => fun q => if q = k then some v else env q

/-- One iteration of the `.env` parsing loop of `load_env_file`: skip blank
lines, comments and lines without `=`; otherwise split at the first `=`,
strip the key, strip whitespace then double then single quotes from the
value, and `setdefault` the pair. -/
def applyEnvLine (env : PEnv) (raw_line : String) : PEnv :=
  let line := pyStrip raw_line
  if line = "" ∨ line.startsWith "#" ∨ ¬ hasEq line then env
  else
    let kv := splitAtEq line
    setdefault env (pyStrip kv.1) (pyStripChar '\x27' (pyStripChar '"' (pyStrip kv.2)))

/-- `load_env_file` from `src/practica.py`, with the file system modelled at
its boundary: `file` is `none` when the `.env` file does not exist
(the function returns immediately), else the list of its lines. -/
def load_env_file (file : Option (List String)) (env : PEnv) : PEnv :=
  match file with
  | none => env
  | some lines => lines.foldl applyEnvLine env

theorem setdefault_preserves (env : PEnv) (k2 v2 k v : String) (h : env k = some v) :
    setdefault env k2 v2 k = some v := by
  unfold setdefault
  cases h2 : env k2 with
  | some w => exact h
  | none =>
    have hne : k ≠ k2 := by
      intro he
      rw [he, h2] at h
      cases h
    simp [hne, h]

theorem applyEnvLine_preserves (env : PEnv) (l k v : String) (h : env k = some v) :
    applyEnvLine env l k = some v := by
  unfold applyEnvLine
  split
  · exact h
  · exact setdefault_preserves env _ _ k v h

theorem load_env_foldl_preserves (k v : String) :
    ∀ (lines : List String) (env : PEnv), env k = some v →
      lines.foldl applyEnvLine env k = some v := by
  intro lines
  induction lines with
  | nil => intro env h; exact h
  | cons l rest ih =>
    intro env h
    exact ih (applyEnvLine env l) (applyEnvLine_preserves env l k v h)

/-- C9: `load_env_file` never overwrites an environment variable that is
already defined (values read from the `.env` file are applied with
`setdefault`, so only to keys not yet set), and a missing `.env` file leaves
the whole environment untouched. -/
theorem load_env_frame_c9 :
    (∀ (file : Option (List String)) (env : PEnv) (k v : String),
      env k = some v → load_env_file file env k = some v) ∧
    (∀ env : PEnv, load_env_file none env = env) := by
  constructor
  · intro file env k v h
    cases file with
    | none => exact h
    | some lines => exact load_env_foldl_preserves k v lines env h
  · intro env
    rfl

/-- A process environment with only `MONGO_URI` defined. -/
def envP : PEnv := fun q => if q = "MONGO_URI" then some "mongodb://sys" else none

theorem load_env_frame_c9_witness :
    load_env_file (some ["MONGO_URI=mongodb://file", "CITY=Rome"]) envP "MONGO_URI"
      = some "mongodb://sys" ∧
    load_env_file none envP = envP :=
  ⟨load_env_frame_c9.1 (some ["MONGO_URI=mongodb://file", "CITY=Rome"]) envP
      "MONGO_URI" "mongodb://sys" (by simp [envP]),
   load_env_frame_c9.2 envP⟩

def envRequiredMsg (var_name : String) : String :=
  "Variable de entorno requerida no definida: " ++ var_name

/-- `get_required_env` from `src/practica.py`: `os.getenv` yields the value
or `None`, and `if not value` rejects both `None` and the empty string. -/
def get_required_env (env : PEnv) (var_name : String) : Except PyErr String :=
  match env var_name with
  | none => .error (.valueError (envRequiredMsg var_name))
  | some v =>
      if v = "" then .error (.valueError (envRequiredMsg var_name)) else .ok v

/-- C10: `get_required_env` raises a configuration error (`ValueError`) when
the variable is unset and also when it is set to the empty string, and
returns the value exactly when the variable is present and non-empty. -/
theorem required_env_c10 :
    (∀ (env : PEnv) (var_name : String), env var_name = none →
      get_required_env env var_name
        = Except.error (PyErr.valueError (envRequiredMsg var_name))) ∧
    (∀ (env : PEnv) (var_name : String), env var_name = some "" →
      get_required_env env var_name
        = Except.error (PyErr.valueError (envRequiredMsg var_name))) ∧
    (∀ (env : PEnv) (var_name v : String), env var_name = some v → v ≠ "" →
      get_required_env env var_name = Except.ok v) := by
  refine ⟨?_, ?_, ?_⟩
  · intro env var_name h
    simp [get_required_env, h]
  · intro env var_name h
    simp [get_required_env, h]
  · intro env var_name v h hv
    simp [get_required_env, h, hv]

theorem required_env_c10_witness :
    get_required_env (fun _ => none) "OPENWEATHER_API_KEY"
      = Except.error (PyErr.valueError (envRequiredMsg "OPENWEATHER_API_KEY")) ∧
    get_required_env (fun _ => some "") "OPENWEATHER_API_KEY"
      = Except.error (PyErr.valueError (envRequiredMsg "OPENWEATHER_API_KEY")) ∧
    get_required_env (fun _ => some "abc123") "OPENWEATHER_API_KEY" = Except.ok "abc123" :=
  ⟨required_env_c10.1 (fun _ => none) "OPENWEATHER_API_KEY" rfl,
   required_env_c10.2.1 (fun _ => some "") "OPENWEATHER_API_KEY" rfl,
   required_env_c10.2.2 (fun _ => some "abc123") "OPENWEATHER_API_KEY" "abc123" rfl
     (by simp)⟩
